import Mathlib

/-!
Shallow embedding of the CausalAnalytics-CoreCode entry-point scripts.

Each `_0X_*.py` script exposes an `on_receive(data: dict) -> dict` function that
reads its parameters from the input dictionary, runs a causal query through the
dowhy/gcm library, and wraps the outcome in a tagged result dictionary.  The
embedding below keeps the script-level control flow (assignment order of Python
locals, the broad `except` handler, the exact result-dictionary fields) faithful
to the source, while the external library calls (ast.literal_eval, pickle
loading, the gcm estimators) are passed in as function parameters.  Library
behaviour that the specification itself fixes (ancestral sampling, the
acyclicity check) is modelled from the spec, with a doc comment saying so.

Floating-point values are idealised as rationals; machine randomness is
modelled as an explicit generator family indexed by the seed that
`gcm.util.general.set_random_seed` would install.
-/

/-- Python-level failures that the scripts can raise or catch.  `message`
plays the role of `str(e)` in the except handlers. -/
inductive PyError where
  | attributeError
  | unboundLocalError
  | nameError
  | keyError
  | typeError
  | cyclicGraph
  | unknownInterventionTarget (node : String)
  | generic (msg : String)
  deriving DecidableEq

/-- `str(e)` for the modelled exceptions.  The spec taxonomy names are used for
the spec-modelled failures. -/
def PyError.message : PyError → String
  | .attributeError => "AttributeError: object has no attribute"
  | .unboundLocalError => "UnboundLocalError: local variable referenced before assignment"
  | .nameError => "NameError: name is not defined"
  | .keyError => "KeyError"
  | .typeError => "TypeError"
  | .cyclicGraph => "CyclicGraphError: the edge set contains a cycle"
  | .unknownInterventionTarget n => "UnknownInterventionTargetError: " ++ n
  | .generic m => m

/-- `data[key]` on a Python dict: raises KeyError when the key is missing. -/
def getItem {α : Type} : Option α → Except PyError α
  | none => .error .keyError
  | some a => .ok a

/-- A Python dict built from a list of key/value pairs (a dict comprehension):
later duplicates override earlier ones; lookup of an absent key gives `none`. -/
def pyDict {α : Type} (l : List (String × α)) : String → Option α :=
  l.foldl (fun f kv => fun x => if x = kv.1 then some kv.2 else f x) (fun _ => none)

theorem pyDict_append {α : Type} (l : List (String × α)) (kv : String × α) (x : String) :
    pyDict (l ++ [kv]) x = if x = kv.1 then some kv.2 else pyDict l x := by
  simp [pyDict, List.foldl_append]

theorem pyDict_eq_some_of_nodup {α : Type} (l : List (String × α))
    (hnd : (l.map Prod.fst).Nodup) {k : String} {v : α} (hm : (k, v) ∈ l) :
    pyDict l k = some v := by
  induction l using List.reverseRecOn with
  | nil => simp at hm
  | append_singleton l kv ih =>
    rw [pyDict_append]
    rcases List.mem_append.1 hm with hl | hlast
    · have hne : k ≠ kv.1 := by
        have hk : k ∈ l.map Prod.fst := List.mem_map.2 ⟨(k, v), hl, rfl⟩
        intro he
        have hdisj : (l.map Prod.fst).Disjoint [kv.1] :=
          (List.nodup_append.1 (by simpa using hnd)).2.2
        exact hdisj (he ▸ hk) (by simp)
      rw [if_neg hne]
      exact ih (by simpa using (List.nodup_append.1 (by simpa using hnd)).1) hl
    · have : (k, v) = kv := by simpa using hlast
      subst this
      simp

theorem mem_of_pyDict_eq_some {α : Type} (l : List (String × α)) {k : String} {v : α}
    (h : pyDict l k = some v) : (k, v) ∈ l := by
  induction l using List.reverseRecOn with
  | nil => simp [pyDict] at h
  | append_singleton l kv ih =>
    rw [pyDict_append] at h
    by_cases he : k = kv.1
    · rw [if_pos he] at h
      have : v = kv.2 := by simpa using h.symm
      subst this; subst he
      simp
    · rw [if_neg he] at h
      exact List.mem_append.2 (Or.inl (ih h))

/-- Ordering used by `sorted(..., key=lambda item: item[1], reverse=True)`:
descending by the value component. -/
def valGe {κ : Type} (a b : κ × ℚ) : Prop := b.2 ≤ a.2

instance {κ : Type} : DecidableRel (valGe (κ := κ)) :=
  fun a b => inferInstanceAs (Decidable (b.2 ≤ a.2))

instance {κ : Type} : IsTotal (κ × ℚ) valGe :=
  ⟨fun a b => le_total b.2 a.2⟩

instance {κ : Type} : IsTrans (κ × ℚ) valGe :=
  ⟨fun _ _ _ hab hbc => le_trans hbc hab⟩

/-- Python `dict(sorted(pairs, key=lambda item: item[1], reverse=True))`:
a stable sort of the pairs, descending by value. -/
def sortDescByValue {κ : Type} (l : List (κ × ℚ)) : List (κ × ℚ) :=
  List.insertionSort valGe l

theorem sortDescByValue_sorted {κ : Type} (l : List (κ × ℚ)) :
    List.Sorted valGe (sortDescByValue l) :=
  List.sorted_insertionSort valGe l

theorem sortDescByValue_perm {κ : Type} (l : List (κ × ℚ)) :
    List.Perm (sortDescByValue l) l :=
  List.perm_insertionSort valGe l

/-- Python `round(v, 2)` idealised over the rationals. -/
def round2 (q : ℚ) : ℚ := (round (q * 100) : ℤ) / 100

/-- The generator `((key, round(value, 2)) for key, value in d.items())`. -/
def roundMap {κ : Type} (l : List (κ × ℚ)) : List (κ × ℚ) :=
  l.map fun kv => (kv.1, round2 kv.2)

/-- `np.sum([abs(v) for v in value_dictionary.values()])`. -/
def totalAbs {κ : Type} (d : List (κ × ℚ)) : ℚ :=
  (d.map fun kv => |kv.2|).sum

/-- Sum of the values of a result map (used to state the 100% property). -/
def sumValues {κ : Type} (d : List (κ × ℚ)) : ℚ :=
  (d.map fun kv => kv.2).sum

/-- `convert_to_percentage` as defined identically in `_04_arrow_strength.py`,
`_05_intrinsic_causal_influence.py` and `_08_anomaly_attribution.py`:
guard against a zero total, otherwise map each value to
`abs(v) / total_absolute_sum * 100`. -/
def convert_to_percentage {κ : Type} (d : List (κ × ℚ)) : List (κ × ℚ) :=
  let total_absolute_sum := totalAbs d
  if total_absolute_sum = 0 then d.map fun kv => (kv.1, 0)
  else d.map fun kv => (kv.1, |kv.2| / total_absolute_sum * 100)

theorem totalAbs_eq_zero_of_all_zero {κ : Type} (d : List (κ × ℚ))
    (h : ∀ kv ∈ d, kv.2 = 0) : totalAbs d = 0 := by
  induction d with
  | nil => simp [totalAbs]
  | cons hd tl ih =>
    have h0 : hd.2 = 0 := h hd (by simp)
    have htl : totalAbs tl = 0 := ih fun kv hkv => h kv (by simp [hkv])
    simp [totalAbs] at htl ⊢
    simp [h0, htl]

theorem sum_map_abs_mul_const {κ : Type} (d : List (κ × ℚ)) (c : ℚ) :
    (d.map fun kv => |kv.2| * c).sum = totalAbs d * c := by
  induction d with
  | nil => simp [totalAbs]
  | cons hd tl ih =>
    simp only [totalAbs, List.map_cons, List.sum_cons] at ih ⊢
    rw [ih, add_mul]

namespace Interventional

/-- A fitted SCM as the sampling engine needs it: nodes listed in topological
order, each with a mechanism that reads already-resolved values and its own
exogenous noise draw (`child = f(parents, noise)`, spec section 3). -/
structure Scm where
  nodes : List (String × ((String → Int) → Int → Int))

def Scm.names (s : Scm) : List String := s.nodes.map Prod.fst

/-- Modelled from the spec: the per-row ancestral-sampling pass of
`gcm.interventional_samples` (dowhy library code, not under src/).  Spec
section 4.4: visit nodes in topological order; an intervened node's value is
its rule applied to the natural draw (atomic rules ignore it, shift rules add
to it), otherwise the natural draw from the node's own mechanism using
already-resolved parent values. -/
def runNodes : List (String × ((String → Int) → Int → Int)) →
    (String → Option (Int → Int)) → (String → Int) → (String → Int) →
    List (String × Int)
  | [], _, _, _ => []
  | (name, mech) :: rest, interv, noise, env =>
    let natural := mech env (noise name)
    let value := match interv name with
      | some rule => rule natural
      | none => natural
    (name, value) :: runNodes rest interv noise (fun x => if x = name then value else env x)

/-- Modelled from the spec: `gcm.interventional_samples` (dowhy library code,
not under src/).  Spec section 4.4: interventions on non-existent node names
fail with `UnknownInterventionTargetError`; otherwise `n` independent rows of
ancestral samples are produced.  A missing sample count is a TypeError inside
the library. -/
def interventional_samples (scm : Scm) (rules : List (String × (Int → Int)))
    (numSamples : Option Nat) (noise : Nat → String → Int) :
    Except PyError (List (List (String × Int))) :=
  match (rules.map Prod.fst).find? (fun k => !(scm.names.contains k)) with
  | some k => .error (.unknownInterventionTarget k)
  | none =>
    match numSamples with
    | none => .error .typeError
    | some n =>
      .ok ((List.range n).map fun i => runNodes scm.nodes (pyDict rules) (noise i) (fun _ => 0))

/-- Line 77 of `_06_interventional_samples.py`:
`{key: (lambda value: lambda variable: value)(val) for key, val in intervention_user_input}` —
the applied outer lambda captures each pair's own `val` immediately, so every
key gets a constant rule returning its own value. -/
def atomicRules (pairs : List (String × Int)) : List (String × (Int → Int)) :=
  pairs.map fun kv => (kv.1, fun _ => kv.2)

/-- Line 79: `{key: (lambda value: lambda variable: variable + value)(val) ...}`. -/
def shiftRules (pairs : List (String × Int)) : List (String × (Int → Int)) :=
  pairs.map fun kv => (kv.1, fun natural => natural + kv.2)

/-- Lines 76-79: choose the rule dictionary from `intervention_type`.  When the
type is neither "atomic" nor "shift" no branch assigns `intervention`, and the
use at line 82 raises NameError. -/
def buildIntervention (intervention_type : Option String) (pairs : List (String × Int)) :
    Except PyError (List (String × (Int → Int))) :=
  if intervention_type = some "atomic" then .ok (atomicRules pairs)
  else if intervention_type = some "shift" then .ok (shiftRules pairs)
  else .error .nameError

/-- Line 64: `ast.literal_eval(data.get("intervention_input").strip())`.
When the key is missing, `.strip()` on `None` raises AttributeError; otherwise
`lit` models `ast.literal_eval` on the stripped string. -/
def getParsedInput (lit : String → Except PyError (List (String × Int))) :
    Option String → Except PyError (List (String × Int))
  | none => .error .attributeError
  | some s => lit s.trim

structure Input where
  model_path : Option String
  intervention_input : Option String
  num_samples_to_draw : Option Nat
  intervention_type : Option String

structure Result where
  timestamp : String
  status : String
  message : String
  intervention_input : Option String
  intervention_type : Option String
  intervention_output : Option (List (List (String × Int)))
  deriving DecidableEq

/-- Embedding of `on_receive` from `_06_interventional_samples.py`.  `lit`
models `ast.literal_eval`, `loadModel` the pickle load, `rng` the process-wide
generator family by seed; `set_random_seed(0)` at line 69 is reflected by
using `rng 0`.  The except handler (lines 95-104) reads the local
`intervention_type`; when line 64 fails that local was never assigned, so the
handler itself raises UnboundLocalError and the exception escapes `on_receive`
(the `.error` outcome). -/
def on_receive (lit : String → Except PyError (List (String × Int)))
    (loadModel : Option String → Except PyError Scm)
    (rng : Nat → Nat → String → Int)
    (clock : String) (data : Input) : Except PyError Result :=
  match getParsedInput lit data.intervention_input with
  | .error _ => .error .unboundLocalError
  | .ok pairs =>
    let intervention_type := data.intervention_type
    let body : Except PyError (List (List (String × Int))) :=
      match loadModel data.model_path with
      | .error e => .error e
      | .ok scm =>
        match buildIntervention intervention_type pairs with
        | .error e => .error e
        | .ok rules => interventional_samples scm rules data.num_samples_to_draw (rng 0)
    match body with
    | .ok table =>
      .ok { timestamp := clock, status := "success", message := "Successful Intervention.",
            intervention_input := data.intervention_input,
            intervention_type := intervention_type,
            intervention_output := some table }
    | .error e =>
      .ok { timestamp := clock, status := "error", message := e.message,
            intervention_input := data.intervention_input,
            intervention_type := intervention_type,
            intervention_output := none }

theorem runNodes_lookup (nodes : List (String × ((String → Int) → Int → Int)))
    (interv : String → Option (Int → Int)) (noise env : String → Int) (k : String) (v : Int)
    (hk : k ∈ nodes.map Prod.fst)
    (hi : ∃ rule, interv k = some rule ∧ ∀ x, rule x = v) :
    (runNodes nodes interv noise env).lookup k = some v := by
  induction nodes generalizing env with
  | nil => simp at hk
  | cons hd tl ih =>
    obtain ⟨name, mech⟩ := hd
    obtain ⟨rule, hr, hrv⟩ := hi
    by_cases h : k = name
    · subst h
      simp only [runNodes, hr, List.lookup, beq_self_eq_true]
      simp [hrv]
    · have hb : (k == name) = false := beq_eq_false_iff_ne.2 h
      simp only [runNodes, List.lookup, hb]
      have hk' : k ∈ tl.map Prod.fst := by
        simp only [List.map_cons, List.mem_cons] at hk
        exact hk.resolve_left h
      exact ih _ hk'

end Interventional

namespace ArrowStrength

structure Input where
  model_path : Option String
  target_node : Option String

structure Result where
  timestamp : String
  status : String
  message : String
  target_node : Option String
  arrow_strength_edge : Option (List (String × ℚ))
  arrow_strength_edge_pct : Option (List (String × ℚ))
  arrow_strengths_edge_intervals : Option (List (String × (ℚ × ℚ)))
  arrow_strength_node : Option (List (String × ℚ))
  arrow_strength_node_pct : Option (List (String × ℚ))
  arrow_strengths_node_intervals : Option (List (String × (ℚ × ℚ)))
  deriving DecidableEq

/-- The f-string key `f"({k[0]}, {k[1]})"` used for the edge dictionaries. -/
def edgeKey (e : String × String) : String := "(" ++ e.1 ++ ", " ++ e.2 ++ ")"

/-- Embedding of `on_receive` from `_04_arrow_strength.py`.  `lib` collapses the
pickle load and `gcm.confidence_intervals(gcm.bootstrap_sampling(gcm.arrow_strength, ...))`
(lines 86-93, library code) into one fallible call returning the per-edge median
map and interval map; the script-level post-processing (lines 95-133) and the
except handler (lines 135-148) are embedded directly.  The timestamp is captured
before the try block (line 75): `clock`. -/
def on_receive
    (lib : Input → Except PyError
      (List ((String × String) × ℚ) × List ((String × String) × (ℚ × ℚ))))
    (clock : String) (data : Input) : Result :=
  match lib data with
  | .ok (arrow_strengths, arrow_strengths_intervals) =>
    let arrow_strengths_pct := convert_to_percentage arrow_strengths
    { timestamp := clock, status := "success",
      message := "Arrow strengths calculated successfully.",
      target_node := data.target_node,
      arrow_strength_edge :=
        some (arrow_strengths.map fun kv => (edgeKey kv.1, round2 kv.2)),
      arrow_strength_edge_pct :=
        some (arrow_strengths_pct.map fun kv => (edgeKey kv.1, round2 kv.2)),
      arrow_strengths_edge_intervals :=
        some (arrow_strengths_intervals.map fun kv =>
          (edgeKey kv.1, (round2 kv.2.1, round2 kv.2.2))),
      arrow_strength_node :=
        some (sortDescByValue (arrow_strengths.map fun kv => (kv.1.1, round2 kv.2))),
      arrow_strength_node_pct :=
        some (sortDescByValue (arrow_strengths_pct.map fun kv => (kv.1.1, round2 kv.2))),
      arrow_strengths_node_intervals :=
        some (arrow_strengths_intervals.map fun kv =>
          (kv.1.1, (round2 kv.2.1, round2 kv.2.2))) }
  | .error e =>
    { timestamp := clock, status := "error", message := e.message,
      target_node := some (data.target_node.getD ""),
      arrow_strength_edge := none,
      arrow_strength_edge_pct := none,
      arrow_strengths_edge_intervals := none,
      arrow_strength_node := none,
      arrow_strength_node_pct := none,
      arrow_strengths_node_intervals := none }

end ArrowStrength

namespace Intrinsic

structure Input where
  model_path : Option String
  target_node : Option String
  num_samples_randomization : Option Nat

structure Result where
  timestamp : String
  status : String
  message : String
  target_node : Option String
  num_samples_randomization : Option Nat
  intrinsic_influence : Option (List (String × ℚ))
  intrinsic_influence_pct : Option (List (String × ℚ))
  intrinsic_influence_intervals : Option (List (String × (ℚ × ℚ)))
  deriving DecidableEq

/-- Embedding of `on_receive` from `_05_intrinsic_causal_influence.py`.  `lib`
collapses the pickle load and the bootstrap of `gcm.intrinsic_causal_influence`
(lines 76-84) into one fallible call; the sorted/rounded output dictionaries
(lines 89-105) and the except handler (lines 119-130) are embedded directly. -/
def on_receive
    (lib : Input → Except PyError (List (String × ℚ) × List (String × (ℚ × ℚ))))
    (clock : String) (data : Input) : Result :=
  match lib data with
  | .ok (intrinsic_influence, intrinsic_influence_intervals) =>
    let intrinsic_influence_pct := convert_to_percentage intrinsic_influence
    { timestamp := clock, status := "success",
      message := "Intrinsic influences calculated successfully.",
      target_node := data.target_node,
      num_samples_randomization := data.num_samples_randomization,
      intrinsic_influence := some (sortDescByValue (roundMap intrinsic_influence)),
      intrinsic_influence_pct := some (sortDescByValue (roundMap intrinsic_influence_pct)),
      intrinsic_influence_intervals :=
        some (intrinsic_influence_intervals.map fun kv =>
          (kv.1, (round2 kv.2.1, round2 kv.2.2))) }
  | .error e =>
    { timestamp := clock, status := "error", message := e.message,
      target_node := some (data.target_node.getD ""),
      num_samples_randomization := data.num_samples_randomization,
      intrinsic_influence := none,
      intrinsic_influence_pct := none,
      intrinsic_influence_intervals := none }

end Intrinsic

namespace AnomalyAttr

structure Input where
  model_path : Option String
  anomalous_node : Option String
  anomaly_data : Option String

structure Result where
  timestamp : String
  status : String
  message : String
  anomalous_node : Option String
  anomaly_data : Option String
  anomaly_attribution : Option (List (String × ℚ))
  anomaly_attribution_pct : Option (List (String × ℚ))
  anomaly_attribution_confidence : Option (List (String × (ℚ × ℚ)))
  deriving DecidableEq

/-- Embedding of `on_receive` from `_08_anomaly_attribution.py`.  `lib`
collapses the anomaly-data JSON parse, the pickle load and the bootstrap of
`gcm.attribute_anomalies` (lines 85-99) into one fallible call; the
sorted/rounded output dictionaries (lines 104-121) and the except handler
(lines 135-146) are embedded directly.  Both paths echo the anomalous node and
the anomaly-data string from the input. -/
def on_receive
    (lib : Input → Except PyError (List (String × ℚ) × List (String × (ℚ × ℚ))))
    (clock : String) (data : Input) : Result :=
  match lib data with
  | .ok (attribution_scores, attribution_scores_intervals) =>
    let attribution_scores_pct := convert_to_percentage attribution_scores
    { timestamp := clock, status := "success",
      message := "Successful Calculation of Anomaly Attribution",
      anomalous_node := data.anomalous_node,
      anomaly_data := data.anomaly_data,
      anomaly_attribution := some (sortDescByValue (roundMap attribution_scores)),
      anomaly_attribution_pct := some (sortDescByValue (roundMap attribution_scores_pct)),
      anomaly_attribution_confidence :=
        some (attribution_scores_intervals.map fun kv =>
          (kv.1, (round2 kv.2.1, round2 kv.2.2))) }
  | .error e =>
    { timestamp := clock, status := "error", message := e.message,
      anomalous_node := data.anomalous_node,
      anomaly_data := data.anomaly_data,
      anomaly_attribution := none,
      anomaly_attribution_pct := none,
      anomaly_attribution_confidence := none }

end AnomalyAttr

namespace Falsify

/-- The four explanation strings of `_01_falsify_graph.py`, lines 92-108
(triple-quoted literals, including their newlines and indentation). -/
def explanation_vague : String :=
  "\n            Your causal graph is too vague to test properly. Add more specific causal relationships to create a model that makes more concrete predictions.\n            "

def explanation_supported : String :=
  "\n            Great! Your causal graph is both meaningful and supported by data. Proceed with confidence using this model for further analysis.\n            "

def explanation_inconsistent : String :=
  "\n            Unexpected error in testing procedure. Review your methodology and code implementation, as this result combination shouldn\u0027t occur.\n            "

def explanation_falsified : String :=
  "\n            Your causal model is incorrect. Revise your graph structure by examining which specific \n            conditional independence assumptions failed and adjust the causal relationships accordingly.\n            "

/-- Lines 91-108: `explanation = ""` followed by the four-branch if/elif chain
on `result.falsifiable` and `result.falsified`. -/
def explanation_of (falsifiable falsified : Bool) : String :=
  if falsifiable = false ∧ falsified = false then explanation_vague
  else if falsifiable = true ∧ falsified = false then explanation_supported
  else if falsifiable = false ∧ falsified = true then explanation_inconsistent
  else if falsifiable = true ∧ falsified = true then explanation_falsified
  else ""

structure Input where
  observation : Option String
  causal_relationships : Option String

structure Result where
  timestamp : String
  status : String
  message : String
  causal_relationships : Option String
  falsifiable : Option Bool
  falsified : Option Bool
  explanation : Option String
  deriving DecidableEq

/-- Embedding of `on_receive` from `_01_falsify_graph.py`.  `obsLib` models the
JSON deserialisation and DataFrame construction of the observation (lines
77-82), `lit` models `ast.literal_eval` of the stripped edge string (line 86),
`falsifyLib` models `dowhy.gcm.falsify.falsify_graph` (line 89, library code)
returning the `(falsifiable, falsified)` pair.  `data["observation"]` and
`data["causal_relationships"]` raise KeyError when missing; the handler
(lines 124-137) echoes the relationships and nulls the three result fields. -/
def on_receive (obsLib : String → Except PyError Unit)
    (lit : String → Except PyError (List (String × String)))
    (falsifyLib : List (String × String) → Except PyError (Bool × Bool))
    (clock : String) (data : Input) : Result :=
  let body : Except PyError (Bool × Bool) :=
    match getItem data.observation with
    | .error e => .error e
    | .ok s =>
      match obsLib s with
      | .error e => .error e
      | .ok _ =>
        match getItem data.causal_relationships with
        | .error e => .error e
        | .ok rel =>
          match lit rel.trim with
          | .error e => .error e
          | .ok edges => falsifyLib edges
  match body with
  | .ok (falsifiable, falsified) =>
    { timestamp := clock, status := "success", message := "Assessment Completed",
      causal_relationships := data.causal_relationships,
      falsifiable := some falsifiable, falsified := some falsified,
      explanation := some (explanation_of falsifiable falsified) }
  | .error e =>
    { timestamp := clock, status := "error", message := e.message,
      causal_relationships := data.causal_relationships,
      falsifiable := none, falsified := none, explanation := none }

end Falsify

namespace BuildModel

/-- Node list of an edge list, in first-appearance order. -/
def nodesOf (es : List (String × String)) : List String :=
  ((es.map Prod.fst) ++ (es.map Prod.snd)).dedup

/-- Modelled from the spec: Kahn-style source elimination.  Repeatedly delete
nodes without incoming edges (together with their outgoing edges); the edge set
contains a cycle exactly when nodes remain that can never be deleted. -/
def pruneSources : Nat → List String → List (String × String) → Bool
  | 0, ns, _ => !ns.isEmpty
  | fuel + 1, ns, es =>
    let srcs := ns.filter fun v => !(es.any fun e => e.2 == v)
    if srcs.isEmpty then !ns.isEmpty
    else
      pruneSources fuel (ns.filter fun v => es.any fun e => e.2 == v)
        (es.filter fun e => !(srcs.contains e.1))

/-- Modelled from the spec: whether an edge list contains a directed cycle
(spec section 4.1 acyclicity invariant). -/
def hasCycle (es : List (String × String)) : Bool :=
  pruneSources (nodesOf es).length (nodesOf es) es

/-- Modelled from the spec: `gcm.auto.assign_causal_mechanisms` plus `gcm.fit`
(dowhy library code, not under src/).  Spec sections 4.1 and 8: building a
causal model from an edge set containing a cycle always fails with
`CyclicGraphError`; all other mechanism-assignment/fitting failures are
abstracted by `fitLib`. -/
def assignAndFit (fitLib : List (String × String) → Except PyError Unit)
    (edges : List (String × String)) : Except PyError Unit :=
  if hasCycle edges then .error .cyclicGraph else fitLib edges

/-- `os.path.join(data["model_path"], f'{data["model_name"]}.pkl')`: a missing
path or name is a TypeError inside the join. -/
def savePath : Option String → Option String → Except PyError String
  | some dir, some name => .ok (dir ++ "/" ++ name ++ ".pkl")
  | _, _ => .error .typeError

structure Input where
  observation : Option String
  causal_relationships : Option String
  causal_model_type : Option String
  model_path : Option String
  model_name : Option String

structure Result where
  timestamp : String
  status : String
  message : String
  causal_model_type : Option String
  saved_path : Option String
  deriving DecidableEq

/-- Embedding of `on_receive` from `_02_build_causal_model.py`.  `obsLib`
models the observation deserialisation (lines 56-61), `lit` models
`ast.literal_eval` of the stripped edge string (line 65).  Lines 69-72 assign
the `causal_model` local only for the two recognised model types; any other
type leaves it unbound and line 75 raises NameError.  Mechanism assignment and
fitting (lines 75-78) go through `assignAndFit`; `writeLib` models the pickle
dump (lines 81-83). -/
def on_receive (obsLib : String → Except PyError Unit)
    (lit : String → Except PyError (List (String × String)))
    (fitLib : List (String × String) → Except PyError Unit)
    (writeLib : String → Except PyError Unit)
    (clock : String) (data : Input) : Result :=
  let body : Except PyError String :=
    match getItem data.observation with
    | .error e => .error e
    | .ok s =>
      match obsLib s with
      | .error e => .error e
      | .ok _ =>
        match getItem data.causal_relationships with
        | .error e => .error e
        | .ok rel =>
          match lit rel.trim with
          | .error e => .error e
          | .ok edges =>
            if data.causal_model_type = some "non-invertible" ∨
                data.causal_model_type = some "invertible" then
              match assignAndFit fitLib edges with
              | .error e => .error e
              | .ok _ =>
                match savePath data.model_path data.model_name with
                | .error e => .error e
                | .ok path =>
                  match writeLib path with
                  | .error e => .error e
                  | .ok _ => .ok path
            else .error PyError.nameError
  match body with
  | .ok path =>
    { timestamp := clock, status := "success", message := "Model saved successfully.",
      causal_model_type := data.causal_model_type, saved_path := some path }
  | .error e =>
    { timestamp := clock, status := "error", message := e.message,
      causal_model_type := data.causal_model_type, saved_path := none }

end BuildModel

namespace Counterfactual

/-- Line 91 of `_07_computing_counterfactuals.py`:
`{key: (lambda value: lambda variable: value)(val) for key, val in counterfactual_user_input}` —
the only rule shape this entry point can build: a constant function per pair. -/
def counterfactualRules (pairs : List (String × Int)) : List (String × (Int → Int)) :=
  pairs.map fun kv => (kv.1, fun _ => kv.2)

structure Input where
  model_path : Option String
  counterfactual_input : Option String
  observation : Option String

structure Result where
  timestamp : String
  status : String
  message : String
  counterfactual_input : Option String
  observation : Option String
  counterfactual_output : Option (List (List (String × Int)))
  deriving DecidableEq

/-- Embedding of `on_receive` from `_07_computing_counterfactuals.py`.  `lit`
models `ast.literal_eval` of the stripped counterfactual input (line 80; on a
missing key `.strip()` raises AttributeError), `obsLib` the JSON parse of the
observation (line 81), `cfLib` the pickle load plus `gcm.counterfactual_samples`
(lines 87-94, library code) applied to the rule dictionary of line 91. -/
def on_receive (lit : String → Except PyError (List (String × Int)))
    (obsLib : Option String → Except PyError Unit)
    (cfLib : Option String → List (String × (Int → Int)) →
      Except PyError (List (List (String × Int))))
    (clock : String) (data : Input) : Result :=
  let body : Except PyError (List (List (String × Int))) :=
    match Interventional.getParsedInput lit data.counterfactual_input with
    | .error e => .error e
    | .ok pairs =>
      match obsLib data.observation with
      | .error e => .error e
      | .ok _ => cfLib data.model_path (counterfactualRules pairs)
  match body with
  | .ok table =>
    { timestamp := clock, status := "success", message := "Successful Counterfactual.",
      counterfactual_input := data.counterfactual_input,
      observation := data.observation,
      counterfactual_output := some table }
  | .error e =>
    { timestamp := clock, status := "error", message := e.message,
      counterfactual_input := data.counterfactual_input,
      observation := data.observation,
      counterfactual_output := none }

end Counterfactual

theorem atomicRules_keys (pairs : List (String × Int)) :
    (Interventional.atomicRules pairs).map Prod.fst = pairs.map Prod.fst := by
  simp [Interventional.atomicRules]

theorem shiftRules_keys (pairs : List (String × Int)) :
    (Interventional.shiftRules pairs).map Prod.fst = pairs.map Prod.fst := by
  simp [Interventional.shiftRules]

/-- When some intervention key is not a node of the model, the spec-modelled
sampler fails with `UnknownInterventionTargetError` for (the first) such key. -/
theorem interventional_samples_unknown (scm : Interventional.Scm)
    (rules : List (String × (Int → Int))) (num : Option Nat)
    (noise : Nat → String → Int) (k : String)
    (hk : k ∈ rules.map Prod.fst) (hnk : ¬ k ∈ scm.names) :
    ∃ k', ¬ k' ∈ scm.names ∧
      Interventional.interventional_samples scm rules num noise =
        .error (.unknownInterventionTarget k') := by
  have hsome : ((rules.map Prod.fst).find? fun x => !(scm.names.contains x)).isSome := by
    rw [List.find?_isSome]
    exact ⟨k, hk, by simpa using hnk⟩
  obtain ⟨k', hk'⟩ := Option.isSome_iff_exists.1 hsome
  refine ⟨k', ?_, ?_⟩
  · have := List.find?_some hk'
    simpa using this
  · unfold Interventional.interventional_samples
    rw [hk']

/-- C1: the spec's error-handling policy says every public entry point catches
all failures internally and returns a tagged status dictionary, and the claim
asserts this in particular for the interventional-samples entry point when
parsing of `intervention_input` fails before `intervention_type` is assigned.
The code violates it there: the except handler itself reads the unassigned
local `intervention_type`, so an UnboundLocalError escapes `on_receive` instead
of an error dictionary being returned.  Evaluated at such an input. -/
theorem C1_interventional_handler_crash :
    Interventional.on_receive (fun _ => .ok []) (fun _ => .ok ⟨[]⟩) (fun _ _ _ => 0)
      "2025-04-14 14:25:00"
      { model_path := some "causal_model.pkl", intervention_input := none,
        num_samples_to_draw := some 5, intervention_type := some "atomic" } =
      .error .unboundLocalError := rfl

/-- C2: for an atomic intervention request over distinct variables, the entry
point builds one constant rule per variable returning that variable's own
requested value (the applied-lambda closure has no late binding), and with
n > 0 samples every output row carries the requested value exactly in each
intervened variable's column. -/
theorem C2_atomic_intervention_correct
    (pairs : List (String × Int)) (scm : Interventional.Scm)
    (n : Nat) (noise : Nat → String → Int) (k : String) (v : Int)
    (hnd : (pairs.map Prod.fst).Nodup) (hkv : (k, v) ∈ pairs)
    (hall : ∀ k' ∈ pairs.map Prod.fst, k' ∈ scm.names) (hn : 0 < n) :
    (Interventional.buildIntervention (some "atomic") pairs =
      .ok (Interventional.atomicRules pairs)) ∧
    (∃ rule, pyDict (Interventional.atomicRules pairs) k = some rule ∧ ∀ x, rule x = v) ∧
    (∃ table,
      Interventional.interventional_samples scm (Interventional.atomicRules pairs)
        (some n) noise = .ok table ∧
      table.length = n ∧ 0 < table.length ∧
      ∀ row ∈ table, row.lookup k = some v) := by
  have hmem : (k, fun _ => v) ∈ Interventional.atomicRules pairs :=
    List.mem_map.2 ⟨(k, v), hkv, rfl⟩
  have hdict : pyDict (Interventional.atomicRules pairs) k = some (fun _ => v) :=
    pyDict_eq_some_of_nodup _ (by rw [atomicRules_keys]; exact hnd) hmem
  refine ⟨by simp [Interventional.buildIntervention], ⟨_, hdict, fun x => rfl⟩, ?_⟩
  have hfind : (((Interventional.atomicRules pairs).map Prod.fst).find?
      fun x => !(scm.names.contains x)) = none := by
    rw [List.find?_eq_none]
    intro x hx
    rw [atomicRules_keys] at hx
    simp [hall x hx]
  refine ⟨(List.range n).map fun i =>
      Interventional.runNodes scm.nodes (pyDict (Interventional.atomicRules pairs))
        (noise i) (fun _ => 0), ?_, by simp, by simpa using hn, ?_⟩
  · unfold Interventional.interventional_samples
    rw [hfind]
  · intro row hrow
    simp only [List.mem_map, List.mem_range] at hrow
    obtain ⟨i, _, rfl⟩ := hrow
    exact Interventional.runNodes_lookup _ _ _ _ _ _
      (hall k (List.mem_map.2 ⟨(k, v), hkv, rfl⟩))
      ⟨fun _ => v, hdict, fun x => rfl⟩

/-- Witness for C2: a two-variable atomic intervention on a concrete
three-node model, two samples drawn. -/
theorem C2_atomic_intervention_correct_witness :
    (([("a", (5:Int)), ("b", 3)].map Prod.fst).Nodup) ∧
    (("a", (5:Int)) ∈ [("a", (5:Int)), ("b", 3)]) ∧
    (0 < 2) ∧
    (∃ table,
      Interventional.interventional_samples
        (⟨[("a", fun _ w => w), ("b", fun _ w => w + 1),
           ("c", fun env w => env "a" + w)]⟩ : Interventional.Scm)
        (Interventional.atomicRules [("a", (5:Int)), ("b", 3)])
        (some 2) (fun i _ => (i : Int)) = .ok table ∧
      table.length = 2 ∧ 0 < table.length ∧
      ∀ row ∈ table, row.lookup "a" = some (5:Int)) :=
  ⟨by decide, by decide, by decide,
   (C2_atomic_intervention_correct [("a", 5), ("b", 3)]
      ⟨[("a", fun _ w => w), ("b", fun _ w => w + 1),
        ("c", fun env w => env "a" + w)]⟩ 2 (fun i _ => (i : Int)) "a" 5
      (by decide) (by decide) (by decide) (by decide)).2.2⟩

/-- C6: an intervention request naming a variable that is not a node of the
fitted model's graph makes the interventional-samples entry point fail with
UnknownInterventionTargetError, reported through the tagged error result. -/
theorem C6_unknown_target_fails
    (lit : String → Except PyError (List (String × Int)))
    (loadModel : Option String → Except PyError Interventional.Scm)
    (rng : Nat → Nat → String → Int) (clock : String)
    (data : Interventional.Input) (pairs : List (String × Int))
    (scm : Interventional.Scm) (k : String) (ity : String)
    (hparse : Interventional.getParsedInput lit data.intervention_input = .ok pairs)
    (hty : data.intervention_type = some ity)
    (hity : ity = "atomic" ∨ ity = "shift")
    (hload : loadModel data.model_path = .ok scm)
    (hk : k ∈ pairs.map Prod.fst)
    (hnk : ¬ k ∈ scm.names) :
    ∃ k', ¬ k' ∈ scm.names ∧
      Interventional.on_receive lit loadModel rng clock data =
        .ok { timestamp := clock, status := "error",
              message := PyError.message (.unknownInterventionTarget k'),
              intervention_input := data.intervention_input,
              intervention_type := some ity,
              intervention_output := none } := by
  rcases hity with h | h <;> subst h
  · obtain ⟨k', hk1, hk2⟩ := interventional_samples_unknown scm
      (Interventional.atomicRules pairs) data.num_samples_to_draw (rng 0) k
      (by rw [atomicRules_keys]; exact hk) hnk
    refine ⟨k', hk1, ?_⟩
    simp [Interventional.on_receive, hparse, hload, hk2, hty,
      Interventional.buildIntervention, Except.bind]
  · obtain ⟨k', hk1, hk2⟩ := interventional_samples_unknown scm
      (Interventional.shiftRules pairs) data.num_samples_to_draw (rng 0) k
      (by rw [shiftRules_keys]; exact hk) hnk
    refine ⟨k', hk1, ?_⟩
    simp [Interventional.on_receive, hparse, hload, hk2, hty,
      Interventional.buildIntervention, Except.bind]

/-- Witness for C6: intervening on "zz" in a one-node model {"a"}. -/
theorem C6_unknown_target_fails_witness :
    ∃ k', ¬ k' ∈ (⟨[("a", fun _ w => w)]⟩ : Interventional.Scm).names ∧
      Interventional.on_receive (fun _ => .ok [("zz", (1:Int))])
        (fun _ => .ok ⟨[("a", fun _ w => w)]⟩) (fun _ _ _ => 0) "t"
        { model_path := some "m", intervention_input := some "[]",
          num_samples_to_draw := some 1, intervention_type := some "atomic" } =
      .ok { timestamp := "t", status := "error",
            message := PyError.message (.unknownInterventionTarget k'),
            intervention_input := some "[]",
            intervention_type := some "atomic",
            intervention_output := none } :=
  C6_unknown_target_fails (fun _ => .ok [("zz", (1:Int))])
    (fun _ => .ok ⟨[("a", fun _ w => w)]⟩) (fun _ _ _ => 0) "t"
    { model_path := some "m", intervention_input := some "[]",
      num_samples_to_draw := some 1, intervention_type := some "atomic" }
    [("zz", (1:Int))] ⟨[("a", fun _ w => w)]⟩ "zz" "atomic"
    rfl rfl (Or.inl rfl) rfl (by decide) (by decide)

/-- C3: `convert_to_percentage` maps each key to |score| / sum of |scores| x 100;
with a nonzero total the percentages sum to exactly 100 (the floating-point
computation idealised over the rationals), and an all-zero map yields all-zero
percentages without dividing by zero. -/
theorem C3_convert_to_percentage_correct (d : List (String × ℚ)) :
    (totalAbs d ≠ 0 →
      convert_to_percentage d = d.map fun kv => (kv.1, |kv.2| / totalAbs d * 100)) ∧
    (totalAbs d ≠ 0 → sumValues (convert_to_percentage d) = 100) ∧
    (totalAbs d = 0 → convert_to_percentage d = d.map fun kv => (kv.1, 0)) ∧
    ((∀ kv ∈ d, kv.2 = 0) → ∀ kv ∈ convert_to_percentage d, kv.2 = 0) := by
  refine ⟨fun h => by simp [convert_to_percentage, h], fun h => ?_, 
    fun h => by simp [convert_to_percentage, h], fun h => ?_⟩
  · have hform : convert_to_percentage d =
        d.map fun kv => (kv.1, |kv.2| / totalAbs d * 100) := by
      simp [convert_to_percentage, h]
    rw [hform]
    have hpt : ∀ kv : String × ℚ, |kv.2| / totalAbs d * 100 = |kv.2| * (100 / totalAbs d) := by
      intro kv
      field_simp
    simp only [sumValues, List.map_map]
    have : ((d.map fun kv => (kv.1, |kv.2| / totalAbs d * 100)).map fun kv => kv.2) =
        d.map fun kv => |kv.2| * (100 / totalAbs d) := by
      simp only [List.map_map]
      exact List.map_congr_left fun kv _ => hpt kv
    rw [show (Prod.snd ∘ fun kv : String × ℚ => (kv.1, |kv.2| / totalAbs d * 100)) =
        fun kv : String × ℚ => |kv.2| / totalAbs d * 100 from rfl]
    calc (d.map fun kv : String × ℚ => |kv.2| / totalAbs d * 100).sum
        = (d.map fun kv : String × ℚ => |kv.2| * (100 / totalAbs d)).sum := by
          rw [List.map_congr_left fun kv _ => hpt kv]
      _ = totalAbs d * (100 / totalAbs d) := sum_map_abs_mul_const d _
      _ = 100 := by field_simp
  · have h0 : totalAbs d = 0 := totalAbs_eq_zero_of_all_zero d h
    intro kv hkv
    simp only [convert_to_percentage, h0, if_pos] at hkv
    simp only [List.mem_map] at hkv
    obtain ⟨kv', _, rfl⟩ := hkv
    rfl

/-- Witness for C3 at the concrete one-key map {a: 1}: nonzero total, and the
percentages sum to exactly 100. -/
theorem C3_convert_to_percentage_correct_witness :
    totalAbs [("a", (1:ℚ))] ≠ 0 ∧
    sumValues (convert_to_percentage [("a", (1:ℚ))]) = 100 :=
  ⟨by simp [totalAbs],
   (C3_convert_to_percentage_correct [("a", 1)]).2.1 (by simp [totalAbs])⟩

/-- C4: on a successful falsification run, the boolean pair returned by
`falsify_graph` is mapped to exactly one of the four fixed explanation strings
((False,False) too-vague, (True,False) supported, (False,True)
should-not-occur, (True,True) falsified); the result echoes the input causal
relationships and carries both booleans unchanged.  The four strings are
pairwise distinct. -/
theorem C4_falsify_explanation_mapping
    (obsLib : String → Except PyError Unit)
    (lit : String → Except PyError (List (String × String)))
    (falsifyLib : List (String × String) → Except PyError (Bool × Bool))
    (clock : String) (data : Falsify.Input) (s rel : String)
    (edges : List (String × String)) (f1 f2 : Bool)
    (hobs : data.observation = some s) (hobsLib : obsLib s = .ok ())
    (hrel : data.causal_relationships = some rel)
    (hlit : lit rel.trim = .ok edges)
    (hfal : falsifyLib edges = .ok (f1, f2)) :
    (Falsify.on_receive obsLib lit falsifyLib clock data =
      { timestamp := clock, status := "success", message := "Assessment Completed",
        causal_relationships := data.causal_relationships,
        falsifiable := some f1, falsified := some f2,
        explanation := some (Falsify.explanation_of f1 f2) }) ∧
    Falsify.explanation_of false false = Falsify.explanation_vague ∧
    Falsify.explanation_of true false = Falsify.explanation_supported ∧
    Falsify.explanation_of false true = Falsify.explanation_inconsistent ∧
    Falsify.explanation_of true true = Falsify.explanation_falsified ∧
    Falsify.explanation_vague ≠ Falsify.explanation_supported ∧
    Falsify.explanation_vague ≠ Falsify.explanation_inconsistent ∧
    Falsify.explanation_vague ≠ Falsify.explanation_falsified ∧
    Falsify.explanation_supported ≠ Falsify.explanation_inconsistent ∧
    Falsify.explanation_supported ≠ Falsify.explanation_falsified ∧
    Falsify.explanation_inconsistent ≠ Falsify.explanation_falsified := by
  refine ⟨?_, by rfl, by rfl, by rfl, by rfl,
    by decide, by decide, by decide, by decide, by decide, by decide⟩
  simp [Falsify.on_receive, hobs, hobsLib, hrel, hlit, hfal, getItem]

/-- Witness for C4: a concrete run whose falsification outcome is
(falsifiable = true, falsified = false). -/
theorem C4_falsify_explanation_mapping_witness :
    (Falsify.on_receive (fun _ => .ok ()) (fun _ => .ok [("a", "b")])
        (fun _ => .ok (true, false)) "t"
        { observation := some "[]", causal_relationships := some "[(a, b)]" } =
      { timestamp := "t", status := "success", message := "Assessment Completed",
        causal_relationships := some "[(a, b)]",
        falsifiable := some true, falsified := some false,
        explanation := some (Falsify.explanation_of true false) }) ∧
    Falsify.explanation_of false false = Falsify.explanation_vague ∧
    Falsify.explanation_of true false = Falsify.explanation_supported ∧
    Falsify.explanation_of false true = Falsify.explanation_inconsistent ∧
    Falsify.explanation_of true true = Falsify.explanation_falsified ∧
    Falsify.explanation_vague ≠ Falsify.explanation_supported ∧
    Falsify.explanation_vague ≠ Falsify.explanation_inconsistent ∧
    Falsify.explanation_vague ≠ Falsify.explanation_falsified ∧
    Falsify.explanation_supported ≠ Falsify.explanation_inconsistent ∧
    Falsify.explanation_supported ≠ Falsify.explanation_falsified ∧
    Falsify.explanation_inconsistent ≠ Falsify.explanation_falsified :=
  C4_falsify_explanation_mapping (fun _ => .ok ()) (fun _ => .ok [("a", "b")])
    (fun _ => .ok (true, false)) "t"
    { observation := some "[]", causal_relationships := some "[(a, b)]" }
    "[]" "[(a, b)]" [("a", "b")] true false rfl rfl rfl rfl rfl

/-- C5: building the causal model from an edge list containing a cycle never
yields a success result: the entry point reports the CyclicGraphError of the
error taxonomy through its tagged error dictionary, with the saved path
nulled. -/
theorem C5_cyclic_build_fails
    (obsLib : String → Except PyError Unit)
    (lit : String → Except PyError (List (String × String)))
    (fitLib : List (String × String) → Except PyError Unit)
    (writeLib : String → Except PyError Unit)
    (clock : String) (data : BuildModel.Input) (s rel : String)
    (edges : List (String × String))
    (hobs : data.observation = some s) (hobsLib : obsLib s = .ok ())
    (hrel : data.causal_relationships = some rel)
    (hlit : lit rel.trim = .ok edges)
    (hty : data.causal_model_type = some "invertible" ∨
           data.causal_model_type = some "non-invertible")
    (hcyc : BuildModel.hasCycle edges = true) :
    BuildModel.on_receive obsLib lit fitLib writeLib clock data =
      { timestamp := clock, status := "error",
        message := PyError.message .cyclicGraph,
        causal_model_type := data.causal_model_type, saved_path := none } := by
  have htyp : (data.causal_model_type = some "non-invertible" ∨
      data.causal_model_type = some "invertible") := hty.symm
  simp [BuildModel.on_receive, hobs, hobsLib, hrel, hlit, getItem, htyp,
    BuildModel.assignAndFit, hcyc]

/-- Witness for C5: a two-node cycle a -> b -> a. -/
theorem C5_cyclic_build_fails_witness :
    BuildModel.on_receive (fun _ => .ok ()) (fun _ => .ok [("a", "b"), ("b", "a")])
      (fun _ => .ok ()) (fun _ => .ok ()) "t"
      { observation := some "[]", causal_relationships := some "cyc",
        causal_model_type := some "invertible",
        model_path := some "models", model_name := some "m" } =
      { timestamp := "t", status := "error",
        message := PyError.message .cyclicGraph,
        causal_model_type := some "invertible", saved_path := none } :=
  C5_cyclic_build_fails (fun _ => .ok ()) (fun _ => .ok [("a", "b"), ("b", "a")])
    (fun _ => .ok ()) (fun _ => .ok ()) "t"
    { observation := some "[]", causal_relationships := some "cyc",
      causal_model_type := some "invertible",
      model_path := some "models", model_name := some "m" }
    "[]" "cyc" [("a", "b"), ("b", "a")] rfl rfl rfl rfl (Or.inl rfl) (by decide)

/-- C7 counterexample: two runs of the arrow-strength entry point with the
same input dictionary and the same library behaviour, executed at different
wall-clock times, return different result dictionaries — the timestamp field
comes from `datetime.now()`, so not every field is equal across the two runs
as the claim states. -/
theorem C7_counterexample_timestamp_differs :
    ArrowStrength.on_receive (fun _ => .error .keyError) "2025-04-14 14:25:00"
        { model_path := none, target_node := none } ≠
      ArrowStrength.on_receive (fun _ => .error .keyError) "2025-04-14 14:25:01"
        { model_path := none, target_node := none } := by
  decide

/-- C7 (amended): with identical inputs and identical library behaviour —
all query randomness being drawn from the generator installed by the fixed
seed 0 — two runs of an entry point agree on every field of the result except
the wall-clock timestamp.  Stated for the two cited entry points
(arrow strength and interventional samples). -/
theorem C7_amended_reproducible_modulo_timestamp :
    (∀ (lib : ArrowStrength.Input → Except PyError
          (List ((String × String) × ℚ) × List ((String × String) × (ℚ × ℚ))))
        (d : ArrowStrength.Input) (t1 t2 : String),
      { ArrowStrength.on_receive lib t1 d with timestamp := "" } =
        { ArrowStrength.on_receive lib t2 d with timestamp := "" }) ∧
    (∀ (lit : String → Except PyError (List (String × Int)))
        (loadModel : Option String → Except PyError Interventional.Scm)
        (rng : Nat → Nat → String → Int) (d : Interventional.Input) (t1 t2 : String),
      (Interventional.on_receive lit loadModel rng t1 d).map
          (fun r => { r with timestamp := "" }) =
        (Interventional.on_receive lit loadModel rng t2 d).map
          (fun r => { r with timestamp := "" })) := by
  constructor
  · intro lib d t1 t2
    cases h : lib d with
    | ok p =>
      obtain ⟨med, ivs⟩ := p
      simp [ArrowStrength.on_receive, h]
    | error e =>
      simp [ArrowStrength.on_receive, h]
  · intro lit loadModel rng d t1 t2
    cases hp : Interventional.getParsedInput lit d.intervention_input with
    | error e => simp [Interventional.on_receive, hp]
    | ok pairs =>
      cases hl : loadModel d.model_path with
      | error e => simp [Interventional.on_receive, hp, hl, Except.map]
      | ok scm =>
        cases hb : Interventional.buildIntervention d.intervention_type pairs with
        | error e => simp [Interventional.on_receive, hp, hl, hb, Except.map]
        | ok rules =>
          cases hs : Interventional.interventional_samples scm rules
              d.num_samples_to_draw (rng 0) with
          | error e => simp [Interventional.on_receive, hp, hl, hb, hs, Except.map]
          | ok table => simp [Interventional.on_receive, hp, hl, hb, hs, Except.map]

/-- C8: whenever the arrow-strength or anomaly-attribution query fails, the
returned error dictionary nulls every computed result field; only the echoed
inputs, the timestamp, the status and the message are populated. -/
theorem C8_error_results_all_null
    (lib4 : ArrowStrength.Input → Except PyError
      (List ((String × String) × ℚ) × List ((String × String) × (ℚ × ℚ))))
    (lib8 : AnomalyAttr.Input → Except PyError
      (List (String × ℚ) × List (String × (ℚ × ℚ))))
    (t4 t8 : String) (d4 : ArrowStrength.Input) (d8 : AnomalyAttr.Input)
    (h4 : (ArrowStrength.on_receive lib4 t4 d4).status = "error")
    (h8 : (AnomalyAttr.on_receive lib8 t8 d8).status = "error") :
    ((ArrowStrength.on_receive lib4 t4 d4).arrow_strength_edge = none ∧
     (ArrowStrength.on_receive lib4 t4 d4).arrow_strength_edge_pct = none ∧
     (ArrowStrength.on_receive lib4 t4 d4).arrow_strengths_edge_intervals = none ∧
     (ArrowStrength.on_receive lib4 t4 d4).arrow_strength_node = none ∧
     (ArrowStrength.on_receive lib4 t4 d4).arrow_strength_node_pct = none ∧
     (ArrowStrength.on_receive lib4 t4 d4).arrow_strengths_node_intervals = none ∧
     (ArrowStrength.on_receive lib4 t4 d4).timestamp = t4 ∧
     (ArrowStrength.on_receive lib4 t4 d4).target_node = some (d4.target_node.getD "")) ∧
    ((AnomalyAttr.on_receive lib8 t8 d8).anomaly_attribution = none ∧
     (AnomalyAttr.on_receive lib8 t8 d8).anomaly_attribution_pct = none ∧
     (AnomalyAttr.on_receive lib8 t8 d8).anomaly_attribution_confidence = none ∧
     (AnomalyAttr.on_receive lib8 t8 d8).timestamp = t8 ∧
     (AnomalyAttr.on_receive lib8 t8 d8).anomalous_node = d8.anomalous_node ∧
     (AnomalyAttr.on_receive lib8 t8 d8).anomaly_data = d8.anomaly_data) := by
  constructor
  · cases h : lib4 d4 with
    | ok p =>
      obtain ⟨med, ivs⟩ := p
      simp [ArrowStrength.on_receive, h] at h4
    | error e =>
      simp [ArrowStrength.on_receive, h]
  · cases h : lib8 d8 with
    | ok p =>
      obtain ⟨med, ivs⟩ := p
      simp [AnomalyAttr.on_receive, h] at h8
    | error e =>
      simp [AnomalyAttr.on_receive, h]

/-- Witness for C8 at concrete failing runs of both entry points. -/
theorem C8_error_results_all_null_witness :
    ((ArrowStrength.on_receive (fun _ => .error .keyError) "t4"
        { model_path := none, target_node := some "c" }).arrow_strength_edge = none ∧
     (ArrowStrength.on_receive (fun _ => .error .keyError) "t4"
        { model_path := none, target_node := some "c" }).arrow_strength_edge_pct = none ∧
     (ArrowStrength.on_receive (fun _ => .error .keyError) "t4"
        { model_path := none, target_node := some "c" }).arrow_strengths_edge_intervals = none ∧
     (ArrowStrength.on_receive (fun _ => .error .keyError) "t4"
        { model_path := none, target_node := some "c" }).arrow_strength_node = none ∧
     (ArrowStrength.on_receive (fun _ => .error .keyError) "t4"
        { model_path := none, target_node := some "c" }).arrow_strength_node_pct = none ∧
     (ArrowStrength.on_receive (fun _ => .error .keyError) "t4"
        { model_path := none, target_node := some "c" }).arrow_strengths_node_intervals = none ∧
     (ArrowStrength.on_receive (fun _ => .error .keyError) "t4"
        { model_path := none, target_node := some "c" }).timestamp = "t4" ∧
     (ArrowStrength.on_receive (fun _ => .error .keyError) "t4"
        { model_path := none, target_node := some "c" }).target_node =
       some ((some "c" : Option String).getD "")) ∧
    ((AnomalyAttr.on_receive (fun _ => .error .typeError) "t8"
        { model_path := none, anomalous_node := some "n", anomaly_data := none }).anomaly_attribution = none ∧
     (AnomalyAttr.on_receive (fun _ => .error .typeError) "t8"
        { model_path := none, anomalous_node := some "n", anomaly_data := none }).anomaly_attribution_pct = none ∧
     (AnomalyAttr.on_receive (fun _ => .error .typeError) "t8"
        { model_path := none, anomalous_node := some "n", anomaly_data := none }).anomaly_attribution_confidence = none ∧
     (AnomalyAttr.on_receive (fun _ => .error .typeError) "t8"
        { model_path := none, anomalous_node := some "n", anomaly_data := none }).timestamp = "t8" ∧
     (AnomalyAttr.on_receive (fun _ => .error .typeError) "t8"
        { model_path := none, anomalous_node := some "n", anomaly_data := none }).anomalous_node = some "n" ∧
     (AnomalyAttr.on_receive (fun _ => .error .typeError) "t8"
        { model_path := none, anomalous_node := some "n", anomaly_data := none }).anomaly_data = none) :=
  C8_error_results_all_null (fun _ => .error .keyError) (fun _ => .error .typeError)
    "t4" "t8" { model_path := none, target_node := some "c" }
    { model_path := none, anomalous_node := some "n", anomaly_data := none }
    rfl rfl

/-- C9 counterexample: a successful arrow-strength result whose edge-level raw
score map is returned in the library's key order, not sorted descending by
(rounded) score — refuting the claim that every returned raw score map of the
attribution queries is ordered descending. -/
theorem C9_counterexample_edge_map_not_sorted :
    ¬ List.Sorted valGe
      (((ArrowStrength.on_receive
          (fun _ => .ok ([(("a", "t"), (1:ℚ)), (("b", "t"), 2)], []))
          "ts" { model_path := none, target_node := some "t" }).arrow_strength_edge).getD []) := by
  have hfield : (ArrowStrength.on_receive
      (fun _ => .ok ([(("a", "t"), (1:ℚ)), (("b", "t"), 2)], []))
      "ts" { model_path := none, target_node := some "t" }).arrow_strength_edge =
      some [("(a, t)", round2 1), ("(b, t)", round2 2)] := by
    simp [ArrowStrength.on_receive, ArrowStrength.edgeKey]
  rw [hfield]
  intro hs
  rw [Option.getD_some, List.sorted_cons] at hs
  have h12 := hs.1 ("(b, t)", round2 2) (by simp)
  have hle : round2 (2:ℚ) ≤ round2 (1:ℚ) := h12
  norm_num [round2] at hle

/-- C9 (amended): the intrinsic-influence and anomaly-attribution raw and
percentage maps, and the node-level arrow-strength raw and percentage maps,
are returned sorted descending by their rounded scores while remaining maps
keyed by name (a permutation of the rounded score map); the edge-level
arrow-strength maps instead keep the library's key order. -/
theorem C9_amended_sorted_result_maps :
    (∀ (med : List (String × ℚ)) (ivs : List (String × (ℚ × ℚ)))
        (t : String) (d : Intrinsic.Input),
      (Intrinsic.on_receive (fun _ => .ok (med, ivs)) t d).status = "success" ∧
      (Intrinsic.on_receive (fun _ => .ok (med, ivs)) t d).intrinsic_influence =
        some (sortDescByValue (roundMap med)) ∧
      List.Sorted valGe (sortDescByValue (roundMap med)) ∧
      List.Perm (sortDescByValue (roundMap med)) (roundMap med) ∧
      (Intrinsic.on_receive (fun _ => .ok (med, ivs)) t d).intrinsic_influence_pct =
        some (sortDescByValue (roundMap (convert_to_percentage med))) ∧
      List.Sorted valGe (sortDescByValue (roundMap (convert_to_percentage med))) ∧
      List.Perm (sortDescByValue (roundMap (convert_to_percentage med)))
        (roundMap (convert_to_percentage med))) ∧
    (∀ (med : List (String × ℚ)) (ivs : List (String × (ℚ × ℚ)))
        (t : String) (d : AnomalyAttr.Input),
      (AnomalyAttr.on_receive (fun _ => .ok (med, ivs)) t d).status = "success" ∧
      (AnomalyAttr.on_receive (fun _ => .ok (med, ivs)) t d).anomaly_attribution =
        some (sortDescByValue (roundMap med)) ∧
      (AnomalyAttr.on_receive (fun _ => .ok (med, ivs)) t d).anomaly_attribution_pct =
        some (sortDescByValue (roundMap (convert_to_percentage med))) ∧
      List.Sorted valGe (sortDescByValue (roundMap med)) ∧
      List.Perm (sortDescByValue (roundMap med)) (roundMap med) ∧
      List.Sorted valGe (sortDescByValue (roundMap (convert_to_percentage med))) ∧
      List.Perm (sortDescByValue (roundMap (convert_to_percentage med)))
        (roundMap (convert_to_percentage med))) ∧
    (∀ (med : List ((String × String) × ℚ)) (ivs : List ((String × String) × (ℚ × ℚ)))
        (t : String) (d : ArrowStrength.Input),
      (ArrowStrength.on_receive (fun _ => .ok (med, ivs)) t d).status = "success" ∧
      (ArrowStrength.on_receive (fun _ => .ok (med, ivs)) t d).arrow_strength_node =
        some (sortDescByValue (med.map fun kv => (kv.1.1, round2 kv.2))) ∧
      List.Sorted valGe (sortDescByValue (med.map fun kv => (kv.1.1, round2 kv.2))) ∧
      (ArrowStrength.on_receive (fun _ => .ok (med, ivs)) t d).arrow_strength_node_pct =
        some (sortDescByValue
          ((convert_to_percentage med).map fun kv => (kv.1.1, round2 kv.2))) ∧
      List.Sorted valGe (sortDescByValue
        ((convert_to_percentage med).map fun kv => (kv.1.1, round2 kv.2))) ∧
      (ArrowStrength.on_receive (fun _ => .ok (med, ivs)) t d).arrow_strength_edge =
        some (med.map fun kv => (ArrowStrength.edgeKey kv.1, round2 kv.2))) := by
  refine ⟨fun med ivs t d => ?_, fun med ivs t d => ?_, fun med ivs t d => ?_⟩
  · exact ⟨by simp [Intrinsic.on_receive], by simp [Intrinsic.on_receive],
      sortDescByValue_sorted _, sortDescByValue_perm _,
      by simp [Intrinsic.on_receive], sortDescByValue_sorted _, sortDescByValue_perm _⟩
  · exact ⟨by simp [AnomalyAttr.on_receive], by simp [AnomalyAttr.on_receive],
      by simp [AnomalyAttr.on_receive], sortDescByValue_sorted _, sortDescByValue_perm _,
      sortDescByValue_sorted _, sortDescByValue_perm _⟩
  · exact ⟨by simp [ArrowStrength.on_receive], by simp [ArrowStrength.on_receive],
      sortDescByValue_sorted _, by simp [ArrowStrength.on_receive],
      sortDescByValue_sorted _, by simp [ArrowStrength.on_receive]⟩

/-- C10: every rule the counterfactual entry point builds from its
(variable, value) pairs is a constant function returning the pair's own value —
the natural value is ignored, so no shift-style counterfactual intervention can
be expressed through this entry point. -/
theorem C10_counterfactual_rules_constant (pairs : List (String × Int)) (k : String)
    (rule : Int → Int)
    (h : pyDict (Counterfactual.counterfactualRules pairs) k = some rule) :
    (∀ x y, rule x = rule y) ∧ ∃ v, (k, v) ∈ pairs ∧ ∀ x, rule x = v := by
  have hmem := mem_of_pyDict_eq_some _ h
  simp only [Counterfactual.counterfactualRules, List.mem_map] at hmem
  obtain ⟨⟨k', v⟩, hkv, heq⟩ := hmem
  have hk : k' = k := congrArg Prod.fst heq
  have hr : (fun _ : Int => v) = rule := congrArg Prod.snd heq
  subst hk
  constructor
  · intro x y
    rw [← hr]
  · exact ⟨v, hkv, fun x => by rw [← hr]⟩

/-- Witness for C10: the single pair ("a", 5) yields the constant rule 5. -/
theorem C10_counterfactual_rules_constant_witness :
    (∀ x y : Int, (fun _ : Int => (5:Int)) x = (fun _ : Int => (5:Int)) y) ∧
    ∃ v, ("a", v) ∈ [(("a" : String), (5:Int))] ∧
      ∀ x : Int, (fun _ : Int => (5:Int)) x = v :=
  C10_counterfactual_rules_constant [("a", 5)] "a" (fun _ => 5) rfl
